import Mathlib

/-!
Shallow embedding of the overlay/contour pipeline and streaming coordinator of
the KMOB weather-radar web application (`app.py`), together with theorems
settling the spec's claims about it.  Reflectivity values, coordinates and
geometry areas are modelled as rationals; machine floats in the source only
ever feed order comparisons here, which the rationals reproduce.
-/

/-- Radar site identifier (`SITE` in `app.py`). -/
def SITE : String := "KMOB"

/-- KMOB radar latitude (`RADAR_LAT`). -/
def RADAR_LAT : ℚ := 30.6794

/-- KMOB radar longitude (`RADAR_LON`). -/
def RADAR_LON : ℚ := -88.2397

/-- `get_reflectivity_color` from `app.py`: the fixed 16-bucket
NWS-style reflectivity-to-color lookup chain. -/
def get_reflectivity_color (value : ℚ) : String :=
  if value < -10 then "#000000"
  else if value < 0 then "#9C9C9C"
  else if value < 5 then "#00ECEC"
  else if value < 10 then "#019FF4"
  else if value < 15 then "#0300F4"
  else if value < 20 then "#02FD02"
  else if value < 25 then "#01C501"
  else if value < 30 then "#008E00"
  else if value < 35 then "#FDF802"
  else if value < 40 then "#E5BC00"
  else if value < 45 then "#FD9500"
  else if value < 50 then "#FD0000"
  else if value < 55 then "#D40000"
  else if value < 60 then "#BC0000"
  else if value < 65 then "#FD00FD"
  else "#9854C6"

/-- A point of `all_points` / `overlay_data` in `create_radar_overlay`:
geographic position, reflectivity in dBZ, and the derived display color. -/
structure RadarPoint where
  lat : ℚ
  lon : ℚ
  dbz : ℚ
  color : String
  deriving DecidableEq

/-- `range(0, stop, step)` of Python for a positive `step`: the multiples of
`step` below `stop`, in increasing order. -/
def pyRange (stop step : Nat) : List Nat :=
  (List.range stop).filter (fun i => i % step == 0)

/-- The grid inputs of one `create_radar_overlay` run: the reflectivity field
of the chosen sweep with its validity mask (`True` = valid echo), and the
projected latitude/longitude grids, each with its own shape. -/
structure SweepGrid where
  refRows : Nat
  refCols : Nat
  latRows : Nat
  latCols : Nat
  maskRows : Nat
  maskCols : Nat
  ref : Nat → Nat → ℚ
  valid : Nat → Nat → Bool
  latAt : Nat → Nat → ℚ
  lonAt : Nat → Nat → ℚ

/-- The point-collection loop of `create_radar_overlay`: iterate the grid
clipped to the minimum common shape with stride `sampling_step` in both
dimensions, keeping a cell when it lies inside the mask's shape, is valid,
and its dBZ is at least `min_dbz_threshold`. -/
def overlay_points (g : SweepGrid) (min_dbz_threshold : ℚ) (sampling_step : Nat) :
    List RadarPoint :=
  let max_i := min g.refRows g.latRows
  let max_j := min g.refCols g.latCols
  (pyRange max_i sampling_step).flatMap (fun i =>
    (pyRange max_j sampling_step).filterMap (fun j =>
      if i < g.maskRows ∧ j < g.maskCols ∧ g.valid i j = true ∧
          min_dbz_threshold ≤ g.ref i j then
        some ⟨g.latAt i j, g.lonAt i j, g.ref i j,
              get_reflectivity_color (g.ref i j)⟩
      else none))

/-- C5: the reflectivity color lookup is a total function over dBZ values with
bucket boundaries at −10, 0, 5, …, 65: every value below −10 yields the first
bucket's color, every value ≥ 65 the last bucket's color, and every exact
boundary value maps to the upper bucket (e.g. 10.0 yields the 10–15 bucket's
dark blue, not the 5–10 bucket's blue). -/
theorem color_lookup_buckets (v : ℚ) :
    (v < -10 → get_reflectivity_color v = "#000000") ∧
    (65 ≤ v → get_reflectivity_color v = "#9854C6") ∧
    get_reflectivity_color (-10) = "#9C9C9C" ∧
    get_reflectivity_color 0 = "#00ECEC" ∧
    get_reflectivity_color 5 = "#019FF4" ∧
    get_reflectivity_color 10 = "#0300F4" ∧
    get_reflectivity_color 15 = "#02FD02" ∧
    get_reflectivity_color 20 = "#01C501" ∧
    get_reflectivity_color 25 = "#008E00" ∧
    get_reflectivity_color 30 = "#FDF802" ∧
    get_reflectivity_color 35 = "#E5BC00" ∧
    get_reflectivity_color 40 = "#FD9500" ∧
    get_reflectivity_color 45 = "#FD0000" ∧
    get_reflectivity_color 50 = "#D40000" ∧
    get_reflectivity_color 55 = "#BC0000" ∧
    get_reflectivity_color 60 = "#FD00FD" ∧
    get_reflectivity_color 65 = "#9854C6" := by
  refine ⟨?_, ?_, ?_, ?_, ?_, ?_, ?_, ?_, ?_, ?_, ?_, ?_, ?_, ?_, ?_, ?_, ?_⟩
  · intro h
    simp only [get_reflectivity_color, if_pos h]
  · intro h
    simp only [get_reflectivity_color]
    repeat rw [if_neg (by linarith)]
  all_goals decide

/-- C5 witness: the general bounds of `color_lookup_buckets` evaluated at
concrete out-of-range inputs. -/
theorem color_lookup_buckets_witness :
    get_reflectivity_color (-11) = "#000000" ∧ get_reflectivity_color 70 = "#9854C6" :=
  ⟨(color_lookup_buckets (-11)).1 (by norm_num),
   (color_lookup_buckets 70).2.1 (by norm_num)⟩

/-- C4: every point emitted by the overlay filter comes from a cell inside the
mask's shape that is valid (not masked) and carries that cell's dBZ value,
which is at least the threshold — no sub-threshold or masked leakage. -/
theorem overlay_filter_sound (g : SweepGrid) (thr : ℚ) (step : Nat)
    (_hstep : 1 ≤ step) (s : RadarPoint) (hs : s ∈ overlay_points g thr step) :
    thr ≤ s.dbz ∧ ∃ i j, i < g.maskRows ∧ j < g.maskCols ∧
      g.valid i j = true ∧ s.dbz = g.ref i j := by
  simp only [overlay_points, List.mem_flatMap, List.mem_filterMap] at hs
  obtain ⟨i, hi, j, hj, hif⟩ := hs
  by_cases hcond : i < g.maskRows ∧ j < g.maskCols ∧ g.valid i j = true ∧
      thr ≤ g.ref i j
  · rw [if_pos hcond] at hif
    obtain ⟨h1, h2, h3, h4⟩ := hcond
    injection hif with hif
    subst hif
    exact ⟨h4, i, j, h1, h2, h3, rfl⟩
  · rw [if_neg hcond] at hif
    exact absurd hif (by simp)

/-- A 1×1 all-valid grid holding a single 40 dBZ echo at the radar site. -/
def oneCellGrid : SweepGrid :=
  { refRows := 1, refCols := 1, latRows := 1, latCols := 1,
    maskRows := 1, maskCols := 1,
    ref := fun _ _ => 40, valid := fun _ _ => true,
    latAt := fun _ _ => RADAR_LAT, lonAt := fun _ _ => RADAR_LON }

/-- The sample the overlay filter emits for `oneCellGrid`. -/
def oneCellSample : RadarPoint :=
  ⟨RADAR_LAT, RADAR_LON, 40, get_reflectivity_color 40⟩

/-- C4 witness: `overlay_filter_sound` applied to the concrete one-cell grid at
threshold 7 and stride 1. -/
theorem overlay_filter_sound_witness :
    (7 : ℚ) ≤ oneCellSample.dbz ∧ ∃ i j, i < oneCellGrid.maskRows ∧
      j < oneCellGrid.maskCols ∧ oneCellGrid.valid i j = true ∧
      oneCellSample.dbz = oneCellGrid.ref i j :=
  overlay_filter_sound oneCellGrid 7 1 (by norm_num) oneCellSample (by
    rw [show overlay_points oneCellGrid 7 1 = [oneCellSample] from rfl]
    exact List.mem_singleton.mpr rfl)

/-- One entry of `dbz_levels` in `create_radar_overlay`: a reflectivity band
with its display colors and label.  The fields follow the dict keys
`min`, `max`, `color`, `bg_color`, `name`. -/
structure DbzLevel where
  min : ℚ
  max : ℚ
  color : String
  bg_color : String
  name : String
  deriving DecidableEq

/-- The six reflectivity bands of `create_radar_overlay`, ordered by
increasing minimum. -/
def dbz_levels : List DbzLevel :=
  [⟨7, 15, "#02FD02", "#014A01", "Light"⟩,
   ⟨15, 25, "#01C501", "#006300", "Moderate"⟩,
   ⟨25, 35, "#FDF802", "#7D7C01", "Heavy"⟩,
   ⟨35, 45, "#FD9500", "#7D4A00", "Very Heavy"⟩,
   ⟨45, 55, "#FD0000", "#7D0000", "Intense"⟩,
   ⟨55, 100, "#FD00FD", "#4A0080", "Extreme"⟩]

/-- The band processing order of `create_radar_overlay`:
`reversed(dbz_levels)`, i.e. highest minimum first. -/
def processed_levels : List DbzLevel := dbz_levels.reverse

/-- The candidate set of one band pass:
`[p for p in all_points if p['dbz'] >= level['min']]`. -/
def level_points (level : DbzLevel) (all_points : List RadarPoint) :
    List RadarPoint :=
  all_points.filter (fun p => decide (level.min ≤ p.dbz))

/-- C6: bands are cumulative — a filtered sample belongs to a band's candidate
set exactly when its dBZ is at least the band's minimum (so a sample above a
higher band's minimum still belongs), and bands are processed from the highest
minimum (55) down to the lowest (7). -/
theorem band_candidate_sets_cumulative :
    (∀ (all_points : List RadarPoint) (level : DbzLevel) (p : RadarPoint),
        p ∈ level_points level all_points ↔ p ∈ all_points ∧ level.min ≤ p.dbz) ∧
    processed_levels.map DbzLevel.min = [55, 45, 35, 25, 15, 7] ∧
    List.Pairwise (fun a b : ℚ => b < a) (processed_levels.map DbzLevel.min) := by
  refine ⟨?_, by decide, by decide⟩
  intro all lvl p
  simp [level_points]

/-- C6 witness: a 40 dBZ sample is in the candidate set of the "Very Heavy"
band (min 35) even though it also exceeds no higher band's minimum by 5. -/
theorem band_candidate_sets_cumulative_witness :
    (⟨30.6794, -88.2397, 40, ""⟩ : RadarPoint) ∈
      level_points ⟨35, 45, "#FD9500", "#7D4A00", "Very Heavy"⟩
        [⟨30.6794, -88.2397, 40, ""⟩] :=
  (band_candidate_sets_cumulative.1 _ _ _).mpr
    ⟨List.mem_singleton.mpr rfl, by norm_num⟩

/-- Squared Euclidean degree-space distance of a point from the radar origin.
The source computes `distance = sqrt(lat_diff**2 + lon_diff**2)` and only ever
compares it with the nonnegative thresholds 1.0 and 2.0, which is equivalent
to comparing this square with 1 and 4. -/
def dist_sq_from_radar (p : RadarPoint) : ℚ :=
  (p.lat - RADAR_LAT) ^ 2 + (p.lon - RADAR_LON) ^ 2

/-- The per-candidate adaptive eps factor of `create_radar_overlay`: 1.0 for
distance below 1°, 1.5 between 1° and 2°, 2.0 beyond 2°. -/
def eps_factor (p : RadarPoint) : ℚ :=
  if dist_sq_from_radar p < 1 then 1
  else if dist_sq_from_radar p < 4 then 3 / 2
  else 2

/-- The band-tiered base eps of `create_radar_overlay`: 0.025 for light bands
(min < 15), 0.02 for moderate-to-heavy (min < 35), 0.015 otherwise. -/
def base_eps_for_level (levelMin : ℚ) : ℚ :=
  if levelMin < 15 then 0.025
  else if levelMin < 35 then 0.02
  else 0.015

/-- The `adaptive_eps` list of one band pass: base eps times each candidate's
adaptive factor, in candidate order. -/
def adaptive_eps (base_eps : ℚ) (pts : List RadarPoint) : List ℚ :=
  pts.map (fun p => base_eps * eps_factor p)

/-- `eps = max(adaptive_eps) if adaptive_eps else base_eps`: the one radius
used for the whole band-clustering pass. -/
def band_pass_eps (base_eps : ℚ) (pts : List RadarPoint) : ℚ :=
  match adaptive_eps base_eps pts with
  | [] => base_eps
  | e :: es => es.foldl max e

lemma foldl_max_mem (e : ℚ) (es : List ℚ) : es.foldl max e ∈ e :: es := by
  induction es generalizing e with
  | nil => simp
  | cons a es ih =>
    rw [List.foldl_cons]
    rcases List.mem_cons.mp (ih (max e a)) with h | h
    · rcases max_choice e a with hm | hm
      · rw [h, hm]; exact List.mem_cons_self _ _
      · rw [h, hm]; exact List.mem_cons_of_mem _ (List.mem_cons_self _ _)
    · exact List.mem_cons_of_mem _ (List.mem_cons_of_mem _ h)

lemma le_foldl_max (e : ℚ) (es : List ℚ) : ∀ x ∈ e :: es, x ≤ es.foldl max e := by
  induction es generalizing e with
  | nil =>
    intro x hx
    rw [List.mem_singleton] at hx
    simp [hx]
  | cons a es ih =>
    intro x hx
    rw [List.foldl_cons]
    rcases List.mem_cons.mp hx with rfl | hx
    · exact le_trans (le_max_left x a) (ih (max x a) _ (List.mem_cons_self _ _))
    · rcases List.mem_cons.mp hx with rfl | hx
      · exact le_trans (le_max_right e x) (ih (max e x) _ (List.mem_cons_self _ _))
      · exact ih (max e a) x (List.mem_cons_of_mem _ hx)

/-- C7: for a non-empty candidate set the single eps of a band pass is the
maximum, over all candidates, of base eps times that candidate's adaptive
factor; and the factor is 1 for Euclidean distance below 1°, 3/2 between 1°
and 2°, and 2 beyond 2°. -/
theorem band_pass_eps_is_max_adaptive :
    (∀ (base_eps : ℚ) (pts : List RadarPoint), pts ≠ [] →
        band_pass_eps base_eps pts ∈ adaptive_eps base_eps pts ∧
        ∀ e ∈ adaptive_eps base_eps pts, e ≤ band_pass_eps base_eps pts) ∧
    (∀ (p : RadarPoint) (d : ℚ), 0 ≤ d → d ^ 2 = dist_sq_from_radar p →
        eps_factor p = if d < 1 then 1 else if d < 2 then 3 / 2 else 2) := by
  constructor
  · intro base pts hne
    cases hpts : adaptive_eps base pts with
    | nil =>
      exact absurd (List.map_eq_nil_iff.mp hpts) hne
    | cons e es =>
      have hfold : band_pass_eps base pts = es.foldl max e := by
        rw [band_pass_eps, hpts]
      constructor
      · rw [hfold]
        exact foldl_max_mem e es
      · intro x hx
        rw [hfold]
        exact le_foldl_max e es x hx
  · intro p d hd hsq
    rw [eps_factor, ← hsq]
    by_cases h1 : d < 1
    · rw [if_pos (by nlinarith), if_pos h1]
    · rw [if_neg (by rw [not_lt]; nlinarith [not_lt.mp h1])]
      by_cases h2 : d < 2
      · rw [if_pos (by nlinarith), if_neg h1, if_pos h2]
      · rw [if_neg (by rw [not_lt]; nlinarith [not_lt.mp h2]), if_neg h1, if_neg h2]

/-- A near candidate (at the radar origin) and a far one (3° north). -/
def epsDemoPts : List RadarPoint :=
  [⟨RADAR_LAT, RADAR_LON, 40, ""⟩, ⟨RADAR_LAT + 3, RADAR_LON, 40, ""⟩]

/-- C7 witness: `band_pass_eps_is_max_adaptive` at base eps 0.02 on the
concrete near/far candidate pair. -/
theorem band_pass_eps_is_max_adaptive_witness :
    band_pass_eps 0.02 epsDemoPts ∈ adaptive_eps 0.02 epsDemoPts ∧
    ∀ e ∈ adaptive_eps 0.02 epsDemoPts, e ≤ band_pass_eps 0.02 epsDemoPts :=
  band_pass_eps_is_max_adaptive.1 0.02 epsDemoPts (by simp [epsDemoPts])

/-- A planar polygon part produced by the geometry engine after
buffer/union/simplify/smooth, reduced to what the emission code inspects:
its area and its exterior ring. -/
structure GeoPolygon where
  area : ℚ
  ring : List (ℚ × ℚ)
  deriving DecidableEq

/-- The shape of `cluster_polygon` after smoothing: either a single polygon
(the `hasattr(cluster_polygon, 'exterior')` branch) or a multi-polygon (the
`hasattr(cluster_polygon, 'geoms')` branch). -/
inductive BufferUnionResult
  | single (p : GeoPolygon)
  | multi (parts : List GeoPolygon)
  deriving DecidableEq

/-- The area threshold `0.000001` of the multi-polygon branch. -/
def negligibleArea : ℚ := 1 / 1000000

/-- The per-cluster emission of `create_radar_overlay`: a single polygon is
appended unconditionally; the parts of a multi-polygon are appended only when
their area exceeds `negligibleArea`. -/
def emit_cluster_polygons : BufferUnionResult → List GeoPolygon
  | .single p => [p]
  | .multi ps => ps.filter (fun p => decide (negligibleArea < p.area))

/-- C3 counterexample: a degenerate zero-area single polygon is emitted even
though its area is not above the negligible-area threshold. -/
theorem degenerate_single_polygon_emitted :
    emit_cluster_polygons (.single ⟨0, []⟩) = [⟨0, []⟩] ∧
    ¬ negligibleArea < (0 : ℚ) := by
  constructor
  · rfl
  · rw [negligibleArea]; norm_num

/-- C3 as amended: only the parts of a multi-polygon result are filtered by
the negligible-area threshold; a single-polygon result is emitted as is,
without any area check. -/
theorem emit_cluster_polygons_area_filter
    (ps : List GeoPolygon) (p : GeoPolygon)
    (hp : p ∈ emit_cluster_polygons (.multi ps)) :
    negligibleArea < p.area ∧ p ∈ ps ∧
    ∀ q : GeoPolygon, emit_cluster_polygons (.single q) = [q] := by
  rw [emit_cluster_polygons, List.mem_filter] at hp
  exact ⟨of_decide_eq_true hp.2, hp.1, fun q => rfl⟩

/-- C3 witness: `emit_cluster_polygons_area_filter` at a concrete one-part
multi-polygon of area 1. -/
theorem emit_cluster_polygons_area_filter_witness :
    negligibleArea < (⟨1, []⟩ : GeoPolygon).area ∧
    (⟨1, []⟩ : GeoPolygon) ∈ [(⟨1, []⟩ : GeoPolygon)] ∧
    ∀ q : GeoPolygon, emit_cluster_polygons (.single q) = [q] :=
  emit_cluster_polygons_area_filter [⟨1, []⟩] ⟨1, []⟩ (by
    rw [emit_cluster_polygons, List.mem_filter]
    refine ⟨List.mem_singleton.mpr rfl, ?_⟩
    rw [decide_eq_true_eq, negligibleArea]
    norm_num)

/-- One object of an S3 listing page: its key and its `LastModified`
metadata instant, modelled as an integer epoch offset. -/
structure S3Object where
  key : String
  lastModified : ℤ
  deriving DecidableEq

/-- `key.endswith("_V06")` of Python, computed on the key's character list. -/
def endsWithV06 (key : String) : Bool :=
  "_V06".data.isSuffixOf key.data

/-- `list_today_volumes` from `app.py`, applied to the listing the paginator
yields: keep the objects whose key ends with the final-volume marker
`"_V06"`. -/
def list_today_volumes (listing : List S3Object) : List S3Object :=
  listing.filter (fun o => endsWithV06 o.key)

/-- Python's `max(vols, key=lambda o: o["LastModified"])` over a non-empty
list `v :: vs`: scan left to right, replacing the current best only on a
strictly greater `LastModified` (so the first of equals wins). -/
def maxByLastModified (v : S3Object) (vs : List S3Object) : S3Object :=
  vs.foldl (fun best o => if best.lastModified < o.lastModified then o else best) v

/-- `latest_volume_key` from `app.py`: `None` when no final volume is listed,
otherwise the key of the listed volume with the greatest `LastModified`. -/
def latest_volume_key (listing : List S3Object) : Option String :=
  match list_today_volumes listing with
  | [] => none
  | v :: vs => some (maxByLastModified v vs).key

/-- `os.path.basename`: the characters after the last `'/'`. -/
def basenameChars (cs : List Char) : List Char :=
  cs.foldl (fun acc c => if c = '/' then [] else acc ++ [c]) []

/-- `parse_timestamp_from_key` from `app.py`: the `"YYYYMMDD_HHMMSS"`
acquisition-timestamp substring of the key's basename (character positions
`len(SITE)` to `len(SITE)+15`), read as the number its digits spell.  The
source parses that substring with `strptime`; the chronological order of the
resulting datetimes is the numeric order of the digit strings. -/
def parse_timestamp_from_key (key : String) : ℕ :=
  (((basenameChars key.data).drop SITE.length).take 15).foldl
    (fun n c => if c.isDigit then 10 * n + (c.toNat - 48) else n) 0

lemma maxByLastModified_mem (v : S3Object) (vs : List S3Object) :
    maxByLastModified v vs ∈ v :: vs := by
  rw [maxByLastModified]
  induction vs generalizing v with
  | nil => simp
  | cons a vs ih =>
    rw [List.foldl_cons]
    by_cases h : v.lastModified < a.lastModified
    · rw [if_pos h]
      exact List.mem_cons_of_mem _ (ih a)
    · rw [if_neg h]
      rcases List.mem_cons.mp (ih v) with hm | hm
      · rw [hm]; exact List.mem_cons_self _ _
      · exact List.mem_cons_of_mem _ (List.mem_cons_of_mem _ hm)

lemma le_maxByLastModified (v : S3Object) (vs : List S3Object) :
    ∀ o ∈ v :: vs, o.lastModified ≤ (maxByLastModified v vs).lastModified := by
  rw [maxByLastModified]
  induction vs generalizing v with
  | nil =>
    intro o ho
    rw [List.mem_singleton] at ho
    simp [ho]
  | cons a vs ih =>
    intro o ho
    rw [List.foldl_cons]
    rcases List.mem_cons.mp ho with rfl | ho
    · by_cases h : o.lastModified < a.lastModified
      · rw [if_pos h]
        exact le_trans (le_of_lt h) (ih a a (List.mem_cons_self _ _))
      · rw [if_neg h]
        exact ih o o (List.mem_cons_self _ _)
    · rcases List.mem_cons.mp ho with rfl | ho
      · by_cases h : v.lastModified < o.lastModified
        · rw [if_pos h]
          exact ih o o (List.mem_cons_self _ _)
        · rw [if_neg h]
          exact le_trans (not_lt.mp h) (ih v v (List.mem_cons_self _ _))
      · by_cases h : v.lastModified < a.lastModified
        · rw [if_pos h]
          exact ih a o (List.mem_cons_of_mem _ ho)
        · rw [if_neg h]
          exact ih v o (List.mem_cons_of_mem _ ho)

/-- C9 counterexample: a listing in which the `LastModified` order inverts the
order of the acquisition timestamps embedded in the keys.  `latest_volume_key`
returns the key with the greater `LastModified`, whose embedded timestamp is
strictly smaller than that of the other listed final volume — so the returned
candidate is not the one with the greatest acquisition timestamp. -/
theorem latest_volume_key_ignores_embedded_timestamp :
    latest_volume_key
        [⟨"2024/05/01/KMOB/KMOB20240501_020000_V06", 100⟩,
         ⟨"2024/05/01/KMOB/KMOB20240501_010000_V06", 200⟩] =
      some "2024/05/01/KMOB/KMOB20240501_010000_V06" ∧
    ⟨"2024/05/01/KMOB/KMOB20240501_020000_V06", 100⟩ ∈
      list_today_volumes
        [⟨"2024/05/01/KMOB/KMOB20240501_020000_V06", 100⟩,
         ⟨"2024/05/01/KMOB/KMOB20240501_010000_V06", 200⟩] ∧
    parse_timestamp_from_key "2024/05/01/KMOB/KMOB20240501_010000_V06" <
      parse_timestamp_from_key "2024/05/01/KMOB/KMOB20240501_020000_V06" := by
  refine ⟨by decide, by decide, by decide⟩

/-- C9 as amended: `latest_volume_key` returns `none` exactly when the listing
holds no final (`"_V06"`) volume, and otherwise returns the key of a listed
final volume whose `LastModified` metadata instant — not the acquisition
timestamp embedded in the key — is greatest among all of them. -/
theorem latest_volume_key_max_last_modified (listing : List S3Object) :
    (latest_volume_key listing = none ↔ list_today_volumes listing = []) ∧
    ∀ k, latest_volume_key listing = some k →
      ∃ o ∈ list_today_volumes listing, o.key = k ∧
        ∀ o' ∈ list_today_volumes listing, o'.lastModified ≤ o.lastModified := by
  cases hvols : list_today_volumes listing with
  | nil =>
    constructor
    · rw [latest_volume_key, hvols]
      simp
    · intro k hk
      rw [latest_volume_key, hvols] at hk
      exact absurd hk (by simp)
  | cons v vs =>
    constructor
    · rw [latest_volume_key, hvols]
      simp
    · intro k hk
      rw [latest_volume_key, hvols] at hk
      injection hk with hk
      exact ⟨maxByLastModified v vs, maxByLastModified_mem v vs, hk,
             le_maxByLastModified v vs⟩

/-- C9 witness: `latest_volume_key_max_last_modified` on the concrete
two-object listing of the counterexample. -/
theorem latest_volume_key_max_last_modified_witness :
    ∃ o ∈ list_today_volumes
        [⟨"2024/05/01/KMOB/KMOB20240501_020000_V06", 100⟩,
         ⟨"2024/05/01/KMOB/KMOB20240501_010000_V06", 200⟩],
      o.key = "2024/05/01/KMOB/KMOB20240501_010000_V06" ∧
      ∀ o' ∈ list_today_volumes
          [⟨"2024/05/01/KMOB/KMOB20240501_020000_V06", 100⟩,
           ⟨"2024/05/01/KMOB/KMOB20240501_010000_V06", 200⟩],
        o'.lastModified ≤ o.lastModified :=
  (latest_volume_key_max_last_modified _).2 _ (by decide)

/-- One pass of the `while streaming_active` body of `stream_radar_data`,
abstracted over the payload type `α` of a decoded volume: `last_key` is the
process-wide `last_volume_key`, `key` the locator's answer, and `fetched` the
outcome of `get_radar_data()` (`none` when the download or decode fails).
Returns the new `last_volume_key` and the broadcast radar-data payload, if
any.  When a new key is seen, `last_volume_key = key` is assigned before
`get_radar_data()` is attempted, so the key is recorded even on failure. -/
def stream_iteration {α : Type} (last_key : Option String) (key : Option String)
    (fetched : Option α) : Option String × Option α :=
  match key with
  | none => (last_key, none)
  | some k =>
    if last_key = some k then (last_key, none)
    else
      match fetched with
      | some radar => (some k, some radar)
      | none => (some k, none)

/-- C10: when a new volume's download or decode fails, the iteration still
overwrites `last_volume_key` with the new key and broadcasts nothing, and any
later iteration that sees the same key is a no-op whatever its download would
return — the failed volume is never retried. -/
theorem failed_volume_never_retried {α : Type} (last_key : Option String)
    (k : String) (hnew : last_key ≠ some k) :
    stream_iteration last_key (some k) (none : Option α) = (some k, none) ∧
    ∀ fetched : Option α, stream_iteration (some k) (some k) fetched = (some k, none) := by
  constructor
  · simp only [stream_iteration]
    rw [if_neg hnew]
  · intro fetched
    simp [stream_iteration]

/-- C10 witness: `failed_volume_never_retried` at a fresh key from the empty
initial state, with a successful later fetch offered. -/
theorem failed_volume_never_retried_witness :
    stream_iteration none (some "KMOB20240501_010000_V06") (none : Option Nat) =
      (some "KMOB20240501_010000_V06", none) ∧
    ∀ fetched : Option Nat,
      stream_iteration (some "KMOB20240501_010000_V06")
        (some "KMOB20240501_010000_V06") fetched =
      (some "KMOB20240501_010000_V06", none) :=
  failed_volume_never_retried none "KMOB20240501_010000_V06" (by simp)

/-- The parameters a streaming session is started with: elevation, dBZ
threshold, and sampling density. -/
structure StreamParams where
  elevation : ℚ
  threshold : ℚ
  density : ℤ
  deriving DecidableEq

/-- The process-wide streaming coordinator state: the `streaming_active`
flag, and the parameter sets of the background polling threads that have been
spawned and have not yet observed `streaming_active = False` at the top of
their `while` loop (each `handle_start_streaming` call spawns one such
thread; `handle_stop_streaming` only clears the flag and removes none). -/
structure CoordinatorState where
  streaming_active : Bool
  pollers : List StreamParams
  deriving DecidableEq

/-- Process start: no stream active, no polling thread. -/
def initCoordinator : CoordinatorState := ⟨false, []⟩

/-- `handle_start_streaming` from `app.py`: set `streaming_active = True` and
unconditionally spawn a new background polling thread with the requested
parameters. -/
def handle_start_streaming (s : CoordinatorState) (p : StreamParams) :
    CoordinatorState :=
  ⟨true, p :: s.pollers⟩

/-- `handle_stop_streaming` from `app.py`: clear `streaming_active`; the
polling threads themselves only exit later, when they re-test the flag. -/
def handle_stop_streaming (s : CoordinatorState) : CoordinatorState :=
  ⟨false, s.pollers⟩

/-- C1 failing runs: (a) two `start_streaming` events leave two concurrent
background polling threads, not one; (b) `start(p1); stop(); start(p2)`
leaves the old thread — still seeded with `p1` — alive under a raised
`streaming_active` flag, so it can broadcast messages computed under the old
parameters after the new start. -/
theorem double_start_spawns_second_poller :
    (handle_start_streaming
        (handle_start_streaming initCoordinator ⟨0.5, 7, 2⟩) ⟨0.9, 10, 1⟩).streaming_active
        = true ∧
    (handle_start_streaming
        (handle_start_streaming initCoordinator ⟨0.5, 7, 2⟩) ⟨0.9, 10, 1⟩).pollers.length
        = 2 ∧
    (handle_start_streaming
        (handle_stop_streaming
          (handle_start_streaming initCoordinator ⟨0.5, 7, 2⟩)) ⟨0.9, 10, 1⟩) =
      ⟨true, [⟨0.9, 10, 1⟩, ⟨0.5, 7, 2⟩]⟩ := by
  refine ⟨rfl, rfl, rfl⟩

/-- The externally observable steps of the `/api/radar_data` route handler,
in program order. -/
inductive RouteOp
  | listObjects
  | downloadVolume
  | computeOverlay
  | rejectInvalidParameter
  deriving DecidableEq

/-- The I/O of `get_radar_data`: list the bucket (via `latest_volume_key`),
then download the newest volume. -/
def get_radar_data_ops : List RouteOp := [.listObjects, .downloadVolume]

/-- The step sequence of the `radar_data` route handler: it calls
`get_radar_data()` first and only then reads the `threshold` and `density`
query parameters and runs `create_radar_overlay`; no branch inspects the
parameters for validity. -/
def radar_data_ops (density : ℤ) : List RouteOp :=
  get_radar_data_ops ++ [.computeOverlay]

/-- `create_radar_overlay` reached with a non-positive `sampling_step`
produces the empty overlay: a zero step makes `range` raise `ValueError`,
which the function's own `except` clause turns into the empty result, and a
negative step makes both sampling loops empty. -/
def overlay_or_empty (g : SweepGrid) (thr : ℚ) (density : ℤ) : List RadarPoint :=
  if density ≤ 0 then [] else overlay_points g thr density.toNat

/-- C2 counterexample: at the invalid density 0 the route handler performs
the object-store listing (and download) and never rejects the request — no
`InvalidParameter` step occurs at all, before or after the I/O. -/
theorem invalid_density_not_rejected_before_io :
    (radar_data_ops 0).head? = some RouteOp.listObjects ∧
    RouteOp.rejectInvalidParameter ∉ radar_data_ops 0 := by
  refine ⟨rfl, by decide⟩

/-- C2 as amended: for every density, valid or not, the handler's step
sequence is listing, download, overlay computation — the I/O always precedes
any use of the parameter, no `InvalidParameter` rejection exists, and a
non-positive density merely yields an empty point list from the overlay
stage. -/
theorem radar_data_always_does_io (density : ℤ) (hinvalid : density ≤ 0) :
    radar_data_ops density =
      [RouteOp.listObjects, RouteOp.downloadVolume, RouteOp.computeOverlay] ∧
    RouteOp.rejectInvalidParameter ∉ radar_data_ops density ∧
    ∀ (g : SweepGrid) (thr : ℚ), overlay_or_empty g thr density = [] := by
  refine ⟨rfl, by rw [radar_data_ops]; decide, ?_⟩
  intro g thr
  rw [overlay_or_empty, if_pos hinvalid]

/-- C2 witness: `radar_data_always_does_io` at the concrete invalid
density 0 and the one-cell grid. -/
theorem radar_data_always_does_io_witness :
    radar_data_ops 0 =
      [RouteOp.listObjects, RouteOp.downloadVolume, RouteOp.computeOverlay] ∧
    RouteOp.rejectInvalidParameter ∉ radar_data_ops 0 ∧
    ∀ (g : SweepGrid) (thr : ℚ), overlay_or_empty g thr 0 = [] :=
  radar_data_always_does_io 0 (by norm_num)

/-- The cluster loop of `create_radar_overlay` over one run, in processing
order: each entry of `builds` is the outcome of the `try` block for one
cluster — `some polys` when the geometry succeeds, `none` when it raises and
the `except` clause skips the cluster.  Successful polygon lists are appended
to the accumulated `contour_clusters`. -/
def process_clusters (builds : List (Option (List GeoPolygon))) :
    List GeoPolygon :=
  builds.foldl
    (fun contour_clusters b =>
      match b with
      | some polys => contour_clusters ++ polys
      | none => contour_clusters)
    []

lemma process_clusters_foldl (builds : List (Option (List GeoPolygon)))
    (acc : List GeoPolygon) :
    builds.foldl
      (fun contour_clusters b =>
        match b with
        | some polys => contour_clusters ++ polys
        | none => contour_clusters)
      acc = acc ++ (builds.filterMap id).flatten := by
  induction builds generalizing acc with
  | nil => simp
  | cons b bs ih =>
    cases b with
    | none => simp [List.foldl_cons, ih]
    | some polys => simp [List.foldl_cons, ih (acc ++ polys), List.append_assoc]

lemma process_clusters_eq (builds : List (Option (List GeoPolygon))) :
    process_clusters builds = (builds.filterMap id).flatten := by
  rw [process_clusters, process_clusters_foldl]
  simp

/-- C8: a cluster whose geometry raises is skipped without affecting the
rest of the run — the output equals the output of the same run with the
failing cluster removed, and every polygon of a successful cluster still
appears in the output. -/
theorem cluster_failure_is_isolated
    (pre post : List (Option (List GeoPolygon)))
    (builds : List (Option (List GeoPolygon))) (polys : List GeoPolygon)
    (hmem : some polys ∈ builds) :
    process_clusters (pre ++ none :: post) = process_clusters (pre ++ post) ∧
    ∀ q ∈ polys, q ∈ process_clusters builds := by
  constructor
  · rw [process_clusters_eq, process_clusters_eq]
    simp
  · intro q hq
    rw [process_clusters_eq]
    rw [List.mem_flatten]
    exact ⟨polys, List.mem_filterMap.mpr ⟨some polys, hmem, rfl⟩, hq⟩

/-- C8 witness: with one failing cluster between two successful ones, the
failure changes nothing and both successful clusters' polygons are present. -/
theorem cluster_failure_is_isolated_witness :
    process_clusters ([some [⟨1, []⟩]] ++ none :: [some [⟨2, []⟩]]) =
      process_clusters ([some [⟨1, []⟩]] ++ [some [⟨2, []⟩]]) ∧
    ∀ q ∈ [(⟨2, []⟩ : GeoPolygon)],
      q ∈ process_clusters [some [⟨1, []⟩], none, some [⟨2, []⟩]] :=
  cluster_failure_is_isolated [some [⟨1, []⟩]] [some [⟨2, []⟩]]
    [some [⟨1, []⟩], none, some [⟨2, []⟩]] [⟨2, []⟩] (by decide)
